import Mathlib

/-!
Shallow embedding of `web-socket-resource.ts` (the `WebSocketResource` class)
and of the collaborator contracts it consumes, together with proofs of the
specification claims.

The single-threaded, event-driven JavaScript code is embedded operationally:
each operation is a pure function from its inputs and an explicit schedule of
environment events (listener firings, buffer observations, signal aborts) to
the effects it performs on the transport and its settled outcome.
-/

namespace WSR

/-- The `WebSocket.readyState` values (`CONNECTING`, `OPEN`, `CLOSING`,
`CLOSED`). -/
inductive ReadyState where
  | CONNECTING
  | OPEN
  | CLOSING
  | CLOSED
deriving DecidableEq, Repr

/-- A close reason passed through the close funnel. Mirrors the `unknown`
reason in the source: either a `WebSocketError` (optional numeric code and
reason text, as built by `WebSocketError.fromCloseEvent` or `new
WebSocketError()`), or any other caller-supplied value (opaque here). -/
inductive CloseReason where
  | wsError (code : Option Nat) (text : String)
  | other (v : Nat)
deriving DecidableEq, Repr

/-- Action performed on the transport by the teardown callback. -/
inductive TeardownAction where
  | closeWith (code : Option Nat) (text : String)
  | closeNoArgs
  | noop
deriving DecidableEq, Repr

/-- The teardown action registered by the constructor
(`this.#manager.addTeardown(...)`, web-socket-resource.ts lines 123-135):
if the transport is still `CONNECTING` or `OPEN`, close it, with the
`WebSocketError` reason's code and text when the reason is a
`WebSocketError`, otherwise with no arguments; in any other transport state
do nothing. -/
def teardown (readyState : ReadyState) (reason : CloseReason) : TeardownAction :=
  if readyState = ReadyState.CONNECTING ∨ readyState = ReadyState.OPEN then
    match reason with
    | CloseReason.wsError code text => TeardownAction.closeWith code text
    | CloseReason.other _ => TeardownAction.closeNoArgs
  else
    TeardownAction.noop

/-- The teardown behaviour as the specification words it (spec §4.2 /
claim text), written independently of the source for comparison:
"if the transport is in the Connecting or Open state it is closed — with the
close reason's numeric code and text when the reason is a transport error,
and with no arguments otherwise; if the transport is in any other state, the
teardown performs no transport operation." -/
def teardownSpec (readyState : ReadyState) (reason : CloseReason) : TeardownAction :=
  match readyState with
  | ReadyState.CONNECTING =>
      match reason with
      | CloseReason.wsError c t => TeardownAction.closeWith c t
      | _ => TeardownAction.closeNoArgs
  | ReadyState.OPEN =>
      match reason with
      | CloseReason.wsError c t => TeardownAction.closeWith c t
      | _ => TeardownAction.closeNoArgs
  | _ => TeardownAction.noop

/-- Observable side effects of the `WebSocketResource` constructor, in
program order: attach the transport close listener, attach the transport
error listener, register the teardown action with the `CloseStack`. -/
inductive CtorEffect where
  | addCloseListener
  | addErrorListener
  | addTeardownAction
deriving DecidableEq, Repr

/-- The `WebSocketResource` constructor (web-socket-resource.ts lines
87-136) as the list of effects it performs, paired with its synchronous
outcome. The `readyState` guard (`if (this.#webSocket.readyState !==
WebSocket.OPEN) throw new Error('WebSocket not open.')`, lines 94-96) runs
before any listener is attached and before `addTeardown`, so on the throwing
path the effect list is empty. -/
def construct (readyState : ReadyState) : List CtorEffect × Except String Unit :=
  if readyState ≠ ReadyState.OPEN then
    ([], Except.error "WebSocket not open.")
  else
    ([CtorEffect.addCloseListener, CtorEffect.addErrorListener,
      CtorEffect.addTeardownAction],
     Except.ok ())

/-! ### The send drain-wait loop -/

/-- One turn of the drain-wait loop, as decided by the environment while the
task is suspended in `sleep(0, { signal })`:
* `ok bufferedAfter` — the sleep resolves normally; `bufferedAfter` is the
  `bufferedAmount` the loop observes at its next `while` check;
* `aborted reason callerAborted bufferedAfter` — the merged task signal
  (resource close signal merged with the caller's signal) aborts with
  `reason` during the sleep, so `sleep` rejects; `callerAborted` is the value
  of `options?.signal?.aborted` and `bufferedAfter` the value of
  `this.#webSocket.bufferedAmount`, both read inside the `catch` block. -/
inductive SleepOutcome where
  | ok (bufferedAfter : Nat)
  | aborted (reason : Nat) (callerAborted : Bool) (bufferedAfter : Nat)
deriving DecidableEq, Repr

/-- Settled outcome of a send: resolved, rejected with a reason, or still
pending when the supplied schedule of sleep outcomes runs out. -/
inductive SendResult where
  | resolved
  | rejected (reason : Nat)
  | pending
deriving DecidableEq, Repr

/-- Effects a send performs on the transport: the synchronous
`this.#webSocket.send(payload)` call, and each suspension in
`sleep(0, { signal })`. -/
inductive SendEffect where
  | transportSend (payload : Nat)
  | sleepYield
deriving DecidableEq, Repr

/-- The drain-wait loop of `send` (web-socket-resource.ts lines 142-151):

```
while (this.#webSocket.bufferedAmount > 0) {
  try {
    await sleep(0, { signal });
  } catch (error: unknown) {
    if (options?.signal?.aborted || this.#webSocket.bufferedAmount > 0) {
      throw error;
    }
  }
}
```

`buffered` is the `bufferedAmount` observed at the `while` check; between
the `catch` check and the next `while` check there is no suspension point,
so a swallowed abort re-checks the same `bufferedAfter` value. Returns the
sleep yields performed and the settled result. -/
def drainRun (buffered : Nat) (events : List SleepOutcome) :
    List SendEffect × SendResult :=
  if buffered = 0 then
    ([], SendResult.resolved)
  else
    match events with
    | [] => ([], SendResult.pending)
    | SleepOutcome.ok b :: rest =>
        let r := drainRun b rest
        (SendEffect.sleepYield :: r.1, r.2)
    | SleepOutcome.aborted reason callerAborted b :: rest =>
        if callerAborted ∨ 0 < b then
          ([SendEffect.sleepYield], SendResult.rejected reason)
        else
          let r := drainRun b rest
          (SendEffect.sleepYield :: r.1, r.2)

/-- The body of the `runTask` callback in `send` (web-socket-resource.ts
lines 138-153): hand `payload` to the transport synchronously
(`this.#webSocket.send(payload)`, line 140, before any `await`), then run
the drain-wait loop. -/
def sendRun (payload buffered : Nat) (events : List SleepOutcome) :
    List SendEffect × SendResult :=
  let r := drainRun buffered events
  (SendEffect.transportSend payload :: r.1, r.2)

/-- Full `send` call including the closed guard. Modelled from the spec: the
`CloseStack.runTask` wrapper comes from the external `@xstd/resource`
package (not in this repository); per spec §3/§6 guarded operations "fail
with a closed indication" once the close signal is aborted, and otherwise
`runTask` runs the callback with the merged signal. `Except.error ()` is the
closed rejection. -/
def send (closed : Bool) (payload buffered : Nat) (events : List SleepOutcome) :
    Except Unit (List SendEffect × SendResult) :=
  if closed then
    Except.error ()
  else
    Except.ok (sendRun payload buffered events)

/-! ### The unified close funnel -/

/-- State of the resource's close machinery. Modelled from the spec: the
`Resource` base class and the `CloseStack` live in the external
`@xstd/resource` package (not in this repository). Per spec §3/§4.2/§6 the
base exposes a close signal that fires once at close-start, and
`close(reason)` is idempotent: it starts the teardown once and later calls
join the same outcome. `closeStarted` is the close signal's aborted flag,
`closeReason` the reason the first close call recorded, `teardownRuns` the
number of times the teardown stack has been executed. -/
structure ResourceState where
  closeStarted : Bool
  closeReason : Option CloseReason
  teardownRuns : Nat
deriving DecidableEq, Repr

/-- A freshly constructed resource: close signal not aborted, no reason,
teardown not yet run. -/
def initResource : ResourceState :=
  { closeStarted := false, closeReason := none, teardownRuns := 0 }

/-- One invocation of the unified close procedure. Modelled from the spec
(§4.2, §6): if close has not started, abort the close signal, record the
reason and run the teardown stack once; otherwise join the in-flight or
completed close without re-running anything. -/
def closeOnce (s : ResourceState) (reason : CloseReason) : ResourceState :=
  if s.closeStarted then
    s
  else
    { closeStarted := true, closeReason := some reason,
      teardownRuns := s.teardownRuns + 1 }

/-- The three triggers that funnel into the unified close
(web-socket-resource.ts lines 98-119 and the inherited `close()`):
an explicit `close(reason)` call, the transport `close` event (whose handler
calls `this.close(WebSocketError.fromCloseEvent(event))`), and the transport
`error` event (whose handler calls `this.close(new WebSocketError())`). -/
inductive CloseTrigger where
  | explicitClose (reason : CloseReason)
  | transportCloseEvent (code : Option Nat) (text : String)
  | transportErrorEvent
deriving DecidableEq, Repr

/-- The close reason each trigger hands to the unified close procedure, as
wired up in the constructor (web-socket-resource.ts lines 98-119). The
generic `new WebSocketError()` carries no close-event code or text. -/
def triggerReason : CloseTrigger → CloseReason
  | CloseTrigger.explicitClose r => r
  | CloseTrigger.transportCloseEvent code text => CloseReason.wsError code text
  | CloseTrigger.transportErrorEvent => CloseReason.wsError none ""

/-- Run a sequence of close invocations against the resource state. -/
def runCloses (s : ResourceState) : List CloseTrigger → ResourceState
  | [] => s
  | t :: ts => runCloses (closeOnce s (triggerReason t)) ts

/-! ### The connection-establishment race -/

/-- The four outcomes the opener races (web-socket-resource.ts lines
41-59): external abort with a reason, transport `open`, transport `close`
(with the close event's code and text), transport `error`. -/
inductive RaceEvent where
  | abortEvt (reason : Nat)
  | openEvt
  | closeEvt (code : Option Nat) (text : String)
  | errorEvt
deriving DecidableEq, Repr

/-- How the returned promise settles. -/
inductive RaceOutcome where
  | resolvedResource
  | rejectedAbort (reason : Nat)
  | rejectedClose (code : Option Nat) (text : String)
  | rejectedError
deriving DecidableEq, Repr

/-- State of the establishment race: which of the four listeners registered
at web-socket-resource.ts lines 64-67 are still attached, and whether the
promise has settled (promise executors settle at most once; the first
`_resolve`/`_reject` call wins). -/
structure RaceState where
  abortListener : Bool
  openListener : Bool
  closeListener : Bool
  errorListener : Bool
  settled : Option RaceOutcome
deriving DecidableEq, Repr

/-- State right after the executor registered the four listeners. -/
def initRace : RaceState :=
  { abortListener := true, openListener := true, closeListener := true,
    errorListener := true, settled := none }

/-- The `end()` helper (web-socket-resource.ts lines 24-29): remove all four
listeners. -/
def endRace (s : RaceState) : RaceState :=
  { s with abortListener := false, openListener := false,
           closeListener := false, errorListener := false }

/-- Settle the promise with `o` if it has not settled yet (first
`_resolve`/`_reject` wins, per promise-executor semantics). -/
def settleRace (s : RaceState) (o : RaceOutcome) : RaceState :=
  match s.settled with
  | some _ => s
  | none => { s with settled := some o }

/-- Dispatch of one environment event to the race. A handler runs only while
its listener is still attached. Each handler (`onAbort`/`onOpen`/`onClose`/
`onError`, lines 41-59) calls `end()` and then settles; the `resolve`/
`reject` wrappers call `end()` a second time, which is a no-op since
`endRace` is idempotent, so one application is modelled. -/
def raceStep (s : RaceState) : RaceEvent → RaceState
  | RaceEvent.abortEvt r =>
      if s.abortListener then
        settleRace (endRace s) (RaceOutcome.rejectedAbort r)
      else s
  | RaceEvent.openEvt =>
      if s.openListener then
        settleRace (endRace s) RaceOutcome.resolvedResource
      else s
  | RaceEvent.closeEvt code text =>
      if s.closeListener then
        settleRace (endRace s) (RaceOutcome.rejectedClose code text)
      else s
  | RaceEvent.errorEvt =>
      if s.errorListener then
        settleRace (endRace s) RaceOutcome.rejectedError
      else s

/-- Run the race over a schedule of environment events. -/
def runRace (s : RaceState) : List RaceEvent → RaceState
  | [] => s
  | e :: es => runRace (raceStep s e) es

/-- The outcome each race event produces when its handler fires. -/
def eventOutcome : RaceEvent → RaceOutcome
  | RaceEvent.abortEvt r => RaceOutcome.rejectedAbort r
  | RaceEvent.openEvt => RaceOutcome.resolvedResource
  | RaceEvent.closeEvt code text => RaceOutcome.rejectedClose code text
  | RaceEvent.errorEvt => RaceOutcome.rejectedError

/-- All four race listeners are detached. -/
def listenersCleared (s : RaceState) : Prop :=
  s.abortListener = false ∧ s.openListener = false ∧
  s.closeListener = false ∧ s.errorListener = false

/-! ### The opener (`#factory`) -/

/-- Values of the transport's `binaryType` property. -/
inductive BinaryType where
  | blob
  | arraybuffer
deriving DecidableEq, Repr

/-- Synchronous effects of the `#factory` promise executor
(web-socket-resource.ts lines 20-68), in program order. -/
inductive OpenEffect where
  | createTransport
  | setBinaryType (t : BinaryType)
  | addAbortListener
  | addOpenListener
  | addCloseListener
  | addErrorListener
deriving DecidableEq, Repr

/-- The `#factory` promise executor. `signalState` is `some reason` when the
signal passed to `open` is already aborted at call time. The executor first
runs `signal?.throwIfAborted()` (line 22): when the signal is aborted this
throws the signal's abort reason, which rejects the promise before
`new WebSocket(...)` (line 61) executes, so no effect is performed.
Otherwise it creates the transport, sets `binaryType = 'arraybuffer'`
(line 62), registers the four race listeners (lines 64-67) and lets the
race run over the event schedule. Returns the effects performed and the
settlement (`none` while the race is still pending). -/
def factoryRun (signalState : Option Nat) (events : List RaceEvent) :
    List OpenEffect × Option RaceOutcome :=
  match signalState with
  | some reason => ([], some (RaceOutcome.rejectedAbort reason))
  | none =>
      ([OpenEffect.createTransport, OpenEffect.setBinaryType BinaryType.arraybuffer,
        OpenEffect.addAbortListener, OpenEffect.addOpenListener,
        OpenEffect.addCloseListener, OpenEffect.addErrorListener],
       (runRace initRace events).settled)

/-- The transport's `binaryType` after a prefix of the factory's effects has
run; a fresh `WebSocket` starts with `binaryType = 'blob'` (platform
default, per the transport contract of spec §6). -/
def binaryTypeAfter (effs : List OpenEffect) : BinaryType :=
  effs.foldl
    (fun b e =>
      match e with
      | OpenEffect.setBinaryType t => t
      | _ => b)
    BinaryType.blob

/-- How the transport hands a binary frame to message listeners, per the
transport contract (spec §6 / the platform WebSocket semantics): with
`binaryType = 'arraybuffer'` the payload is an `ArrayBuffer`, with
`binaryType = 'blob'` a `Blob`. -/
inductive BinaryDelivery where
  | asBlob
  | asArrayBuffer
deriving DecidableEq, Repr

/-- Delivery format of a binary inbound message for a given
`binaryType`. -/
def decodeBinaryMessage : BinaryType → BinaryDelivery
  | BinaryType.blob => BinaryDelivery.asBlob
  | BinaryType.arraybuffer => BinaryDelivery.asArrayBuffer

/-! ### `listen` -/

/-- Synchronous outcome of a `listen(listener, { signal })` call
(web-socket-resource.ts lines 155-171): silent early return when the
caller's signal is already aborted (`if (signal?.aborted) return;`, checked
first), a thrown closed error from `this.throwIfClosed()` otherwise when the
resource is closed, and a registered subscription in the remaining case. -/
inductive ListenOutcome where
  | noopSilent
  | throwClosed
  | subscribed
deriving DecidableEq, Repr

/-- The guard sequence of `listen`: `signal?.aborted` is checked before
`throwIfClosed`, so an aborted caller signal returns silently even on a
closed resource. (`throwIfClosed` is inherited from the external `Resource`
base; per spec §6 it fails fast exactly when the resource is closed.) -/
def listen (callerAborted : Bool) (resourceClosed : Bool) : ListenOutcome :=
  if callerAborted then
    ListenOutcome.noopSilent
  else if resourceClosed then
    ListenOutcome.throwClosed
  else
    ListenOutcome.subscribed

/-- Events relevant to a live message subscription: an inbound message with
its raw payload, the resource's close signal firing, the caller's signal
firing. -/
inductive SubEvent where
  | message (payload : Nat)
  | closeSignalFires
  | callerSignalFires
deriving DecidableEq, Repr

/-- Callback invocations of a subscription registered with
`addEventListener('message', ..., { signal: mergeAbortSignals([this.closeSignal,
signal]) })` (web-socket-resource.ts lines 162-170). `active` is whether the
listener is still attached. The handler forwards `event.data` unmodified.
Per the contract of `mergeAbortSignals` (spec §6: the merged signal fires on
the first of its inputs) and of `addEventListener` with a signal, the
listener is removed the moment either signal fires, and signal removal and
message dispatch are serialized on the single thread. -/
def subDeliveries (active : Bool) : List SubEvent → List Nat
  | [] => []
  | SubEvent.message p :: rest =>
      if active then p :: subDeliveries active rest else subDeliveries active rest
  | SubEvent.closeSignalFires :: rest => subDeliveries false rest
  | SubEvent.callerSignalFires :: rest => subDeliveries false rest

/-- The payloads of the messages arriving strictly before the first firing
of either signal — what the specification says the callback must receive. -/
def messagesBeforeFirstSignal (events : List SubEvent) : List Nat :=
  (events.takeWhile fun e =>
      match e with
      | SubEvent.message _ => true
      | _ => false).filterMap
    fun e =>
      match e with
      | SubEvent.message p => some p
      | _ => none

/-! ## Helper lemmas -/

theorem drainRun_zero (es : List SleepOutcome) :
    drainRun 0 es = ([], SendResult.resolved) := by
  rw [drainRun.eq_def]
  simp

theorem drainRun_pos_nil (b : Nat) (hb : b ≠ 0) :
    drainRun b [] = ([], SendResult.pending) := by
  rw [drainRun.eq_def, if_neg hb]

theorem drainRun_pos_ok (b b2 : Nat) (rest : List SleepOutcome) (hb : b ≠ 0) :
    drainRun b (SleepOutcome.ok b2 :: rest) =
      (SendEffect.sleepYield :: (drainRun b2 rest).1, (drainRun b2 rest).2) := by
  rw [drainRun.eq_def, if_neg hb]

theorem drainRun_pos_abort (b r b2 : Nat) (ca : Bool) (rest : List SleepOutcome)
    (hb : b ≠ 0) :
    drainRun b (SleepOutcome.aborted r ca b2 :: rest) =
      if ca = true ∨ 0 < b2 then
        ([SendEffect.sleepYield], SendResult.rejected r)
      else
        (SendEffect.sleepYield :: (drainRun b2 rest).1, (drainRun b2 rest).2) := by
  rw [drainRun.eq_def, if_neg hb]

theorem drainRun_effects_yield (es : List SleepOutcome) :
    ∀ (b : Nat), ∀ e ∈ (drainRun b es).1, e = SendEffect.sleepYield := by
  induction es with
  | nil =>
      intro b e he
      by_cases hb : b = 0
      · subst hb; rw [drainRun_zero] at he; simp at he
      · rw [drainRun_pos_nil b hb] at he; simp at he
  | cons x rest ih =>
      intro b e he
      by_cases hb : b = 0
      · subst hb; rw [drainRun_zero] at he; simp at he
      · cases x with
        | ok b2 =>
            rw [drainRun_pos_ok b b2 rest hb] at he
            rcases List.mem_cons.mp he with h | h
            · exact h
            · exact ih b2 e h
        | aborted r ca b2 =>
            rw [drainRun_pos_abort b r b2 ca rest hb] at he
            by_cases hc : ca = true ∨ 0 < b2
            · rw [if_pos hc] at he; simp at he; exact he
            · rw [if_neg hc] at he
              rcases List.mem_cons.mp he with h | h
              · exact h
              · exact ih b2 e h

theorem drainRun_allOk_resolved_iff (bs : List Nat) :
    ∀ (b : Nat),
      ((drainRun b (bs.map SleepOutcome.ok)).2 = SendResult.resolved ↔
        (b = 0 ∨ 0 ∈ bs)) := by
  induction bs with
  | nil =>
      intro b
      by_cases hb : b = 0
      · subst hb; simp [drainRun_zero]
      · simp [drainRun_pos_nil b hb, hb]
  | cons b1 rest ih =>
      intro b
      by_cases hb : b = 0
      · subst hb; simp [drainRun_zero]
      · rw [List.map_cons, drainRun_pos_ok b b1 _ hb]
        simp only [ih b1, hb, false_or, List.mem_cons]
        constructor
        · rintro (h | h)
          · exact Or.inl h.symm
          · exact Or.inr h
        · rintro (h | h)
          · exact Or.inl h.symm
          · exact Or.inr h

theorem runCloses_of_started (ts : List CloseTrigger) :
    ∀ (s : ResourceState), s.closeStarted = true → runCloses s ts = s := by
  induction ts with
  | nil => intro s _; rfl
  | cons t ts ih =>
      intro s hs
      show runCloses (closeOnce s (triggerReason t)) ts = s
      rw [closeOnce, if_pos hs]
      exact ih s hs

theorem raceStep_cleared (s : RaceState) (e : RaceEvent) (h : listenersCleared s) :
    raceStep s e = s := by
  obtain ⟨h1, h2, h3, h4⟩ := h
  cases e <;> simp [raceStep, h1, h2, h3, h4]

theorem runRace_cleared (es : List RaceEvent) :
    ∀ (s : RaceState), listenersCleared s → runRace s es = s := by
  induction es with
  | nil => intro s _; rfl
  | cons e es ih =>
      intro s h
      show runRace (raceStep s e) es = s
      rw [raceStep_cleared s e h]
      exact ih s h

theorem subDeliveries_inactive (events : List SubEvent) :
    subDeliveries false events = [] := by
  induction events with
  | nil => rfl
  | cons e rest ih => cases e <;> simp [subDeliveries, ih]

/-- Whether a factory effect registers one of the four race listeners. -/
def isListenerRegistration : OpenEffect → Bool
  | OpenEffect.addAbortListener => true
  | OpenEffect.addOpenListener => true
  | OpenEffect.addCloseListener => true
  | OpenEffect.addErrorListener => true
  | _ => false

/-! ## Claims -/

/-- C1 (counterexample): the claim says that whenever the buffered byte
count has already reached zero by the time the rejection is evaluated, the
send resolves successfully "for any cancellation source (resource close
signal or caller signal)". The code's catch condition is
`options?.signal?.aborted || this.#webSocket.bufferedAmount > 0`: when the
caller's signal has aborted, the send rejects even though the buffer has
drained to zero. Concretely: buffered amount 5, one sleep cancelled with
reason 42 by the caller's signal, buffer observed at 0 in the catch — the
send rejects with 42 instead of resolving. -/
theorem C1_counterexample :
    (drainRun 5 [SleepOutcome.aborted 42 true 0]).2 = SendResult.rejected 42 ∧
    (drainRun 5 [SleepOutcome.aborted 42 true 0]).2 ≠ SendResult.resolved := by
  decide

/-- C1 (amended): if the drain-wait is cancelled, the send rejects with the
cancellation reason exactly when bytes remain buffered at the catch check or
the caller's signal has aborted; when the cancellation comes only from the
resource's close signal and the buffered count has already reached zero, the
send resolves successfully and no error propagates. -/
theorem C1_drain_tie_break (buffered reason b : Nat) (callerAborted : Bool)
    (rest : List SleepOutcome) (hb : 0 < buffered) :
    ((drainRun buffered (SleepOutcome.aborted reason callerAborted b :: rest)).2 =
        SendResult.rejected reason ↔ (callerAborted = true ∨ 0 < b)) ∧
    (callerAborted = false → b = 0 →
      (drainRun buffered (SleepOutcome.aborted reason callerAborted b :: rest)).2 =
        SendResult.resolved) := by
  have hb' : buffered ≠ 0 := Nat.pos_iff_ne_zero.mp hb
  rw [drainRun_pos_abort buffered reason b callerAborted rest hb']
  by_cases hc : callerAborted = true ∨ 0 < b
  · rw [if_pos hc]
    refine ⟨⟨fun _ => hc, fun _ => rfl⟩, ?_⟩
    intro h1 h2
    rcases hc with h | h
    · rw [h1] at h; exact absurd h (by decide)
    · rw [h2] at h; exact absurd h (by decide)
  · rw [if_neg hc]
    push_neg at hc
    obtain ⟨hca, hb2⟩ := hc
    have hb0 : b = 0 := Nat.le_zero.mp hb2
    subst hb0
    rw [drainRun_zero]
    exact ⟨⟨fun h => by simp at h, fun h => by simp [hca] at h⟩,
           fun _ _ => rfl⟩

/-- C1 (witness for the amended theorem): buffered amount 5, cancellation
with reason 7 from the close signal while 2 bytes remain buffered — the
send rejects with 7, matching the tie-break. -/
theorem C1_tie_break_witness :
    0 < 5 ∧
    (((drainRun 5 (SleepOutcome.aborted 7 false 2 :: [])).2 =
        SendResult.rejected 7 ↔ (false = true ∨ 0 < 2)) ∧
     (false = false → 2 = 0 →
       (drainRun 5 (SleepOutcome.aborted 7 false 2 :: [])).2 =
         SendResult.resolved)) :=
  ⟨by decide, C1_drain_tie_break 5 7 2 false [] (by decide)⟩

/-- C2: the close signal transitions from not-aborted to aborted exactly
once, at the start of the close procedure, and never reverts (once started,
further close invocations leave the state unchanged); any nonempty sequence
of close invocations — explicit `close()`, transport close event, transport
error event — collapses into a single teardown execution (`teardownRuns =
1`) whose recorded outcome (the first trigger's reason) all callers
observe. -/
theorem C2_close_funnel (s : ResourceState) (t : CloseTrigger)
    (ts : List CloseTrigger) (hs : s.closeStarted = true) :
    runCloses s ts = s ∧
    (runCloses initResource (t :: ts)).closeStarted = true ∧
    (runCloses initResource (t :: ts)).teardownRuns = 1 ∧
    (runCloses initResource (t :: ts)).closeReason = some (triggerReason t) := by
  refine ⟨runCloses_of_started ts s hs, ?_⟩
  have h1 : runCloses initResource (t :: ts) =
      { closeStarted := true, closeReason := some (triggerReason t),
        teardownRuns := 1 } := by
    show runCloses (closeOnce initResource (triggerReason t)) ts = _
    have h2 : closeOnce initResource (triggerReason t) =
        { closeStarted := true, closeReason := some (triggerReason t),
          teardownRuns := 1 } := rfl
    rw [h2]
    exact runCloses_of_started ts _ rfl
  rw [h1]
  exact ⟨rfl, rfl, rfl⟩

/-- C2 (witness): a resource already closed with one teardown run stays
unchanged under a further transport error event, and the two-trigger
sequence (transport close event, then explicit close) runs teardown once
and records the transport close event's reason. -/
theorem C2_close_funnel_witness :
    runCloses { closeStarted := true, closeReason := none, teardownRuns := 1 }
        [CloseTrigger.transportErrorEvent] =
      { closeStarted := true, closeReason := none, teardownRuns := 1 } ∧
    (runCloses initResource
        [CloseTrigger.transportCloseEvent (some 1000) "bye",
         CloseTrigger.transportErrorEvent]).closeStarted = true ∧
    (runCloses initResource
        [CloseTrigger.transportCloseEvent (some 1000) "bye",
         CloseTrigger.transportErrorEvent]).teardownRuns = 1 ∧
    (runCloses initResource
        [CloseTrigger.transportCloseEvent (some 1000) "bye",
         CloseTrigger.transportErrorEvent]).closeReason =
      some (triggerReason (CloseTrigger.transportCloseEvent (some 1000) "bye")) :=
  C2_close_funnel
    { closeStarted := true, closeReason := none, teardownRuns := 1 }
    (CloseTrigger.transportCloseEvent (some 1000) "bye")
    [CloseTrigger.transportErrorEvent] rfl

/-- C3: for every schedule of race events, the first event settles the
promise with its outcome, later events never change the settlement (exactly
one outcome settles), and on every settling path all four listeners
registered for the race are removed. -/
theorem C3_establishment_race (e : RaceEvent) (es : List RaceEvent) :
    (runRace initRace (e :: es)).settled = some (eventOutcome e) ∧
    listenersCleared (runRace initRace (e :: es)) := by
  have hstep : raceStep initRace e =
      { abortListener := false, openListener := false, closeListener := false,
        errorListener := false, settled := some (eventOutcome e) } := by
    cases e <;> rfl
  have h1 : runRace initRace (e :: es) =
      { abortListener := false, openListener := false, closeListener := false,
        errorListener := false, settled := some (eventOutcome e) } := by
    show runRace (raceStep initRace e) es = _
    rw [hstep]
    exact runRace_cleared es _ ⟨rfl, rfl, rfl, rfl⟩
  rw [h1]
  exact ⟨rfl, rfl, rfl, rfl, rfl⟩

/-- C4: constructing a resource from a transport not in the `OPEN` state
fails synchronously with the construction error `"WebSocket not open."` and
registers no teardown action. -/
theorem C4_ctor_guard (rs : ReadyState) (h : rs ≠ ReadyState.OPEN) :
    (construct rs).2 = Except.error "WebSocket not open." ∧
    CtorEffect.addTeardownAction ∉ (construct rs).1 := by
  simp [construct, h]

/-- C4 (witness): constructing from a `CLOSED` transport throws the
construction error and registers no teardown. -/
theorem C4_ctor_guard_witness :
    (construct ReadyState.CLOSED).2 = Except.error "WebSocket not open." ∧
    CtorEffect.addTeardownAction ∉ (construct ReadyState.CLOSED).1 :=
  C4_ctor_guard ReadyState.CLOSED (by decide)

/-- C5: on a non-closed resource, `send` hands the payload to the transport
synchronously — the transport send is the very first effect of the task and
every later effect is a suspension of the drain wait, so sends started in
call order commit their payloads in call order — and, absent cancellation,
the returned promise resolves exactly when the transport's buffered byte
count reaches zero (immediately, or at some later drain-wait check). -/
theorem C5_send_sync_commit (payload buffered : Nat) (bs : List Nat) :
    send false payload buffered (bs.map SleepOutcome.ok) =
      Except.ok (sendRun payload buffered (bs.map SleepOutcome.ok)) ∧
    (sendRun payload buffered (bs.map SleepOutcome.ok)).1.head? =
      some (SendEffect.transportSend payload) ∧
    (∀ e ∈ (sendRun payload buffered (bs.map SleepOutcome.ok)).1.tail,
      e = SendEffect.sleepYield) ∧
    ((sendRun payload buffered (bs.map SleepOutcome.ok)).2 = SendResult.resolved ↔
      (buffered = 0 ∨ 0 ∈ bs)) := by
  refine ⟨rfl, rfl, ?_, drainRun_allOk_resolved_iff bs buffered⟩
  intro e he
  exact drainRun_effects_yield (bs.map SleepOutcome.ok) buffered e he

/-- C6: the teardown action closes the transport exactly when it is still
`CONNECTING` or `OPEN`, passing the close reason's code and text when the
reason is a `WebSocketError` and no arguments otherwise, and performs no
transport operation in any other transport state — the source teardown
coincides with the specification's description on all inputs. -/
theorem C6_teardown_matches_spec :
    ∀ (rs : ReadyState) (reason : CloseReason),
      teardown rs reason = teardownSpec rs reason := by
  intro rs reason
  cases rs <;> cases reason <;> rfl

/-- C7: `listen` with an already-aborted caller signal returns silently
whatever the resource's closed state; with a live caller signal it throws
the closed error exactly when the resource is closed, and otherwise
subscribes; a live subscription forwards exactly the raw payloads of the
messages arriving before the first firing of the resource's close signal or
the caller's signal, unmodified and in order, with no invocation after that
point. -/
theorem C7_listen_scoped (rc : Bool) (events : List SubEvent) :
    listen true rc = ListenOutcome.noopSilent ∧
    listen false true = ListenOutcome.throwClosed ∧
    listen false false = ListenOutcome.subscribed ∧
    subDeliveries true events = messagesBeforeFirstSignal events := by
  refine ⟨rfl, rfl, rfl, ?_⟩
  induction events with
  | nil => rfl
  | cons e rest ih =>
      cases e with
      | message p =>
          simp [subDeliveries, messagesBeforeFirstSignal, List.takeWhile] at ih ⊢
          exact ih
      | closeSignalFires =>
          simp [subDeliveries, messagesBeforeFirstSignal, List.takeWhile,
                subDeliveries_inactive]
      | callerSignalFires =>
          simp [subDeliveries, messagesBeforeFirstSignal, List.takeWhile,
                subDeliveries_inactive]

/-- C8: when the signal passed to `open` is already aborted, the factory's
promise rejects with that signal's abort reason and the executor performs no
effect at all — in particular no transport is created. -/
theorem C8_open_already_aborted (reason : Nat) (events : List RaceEvent) :
    (factoryRun (some reason) events).2 = some (RaceOutcome.rejectedAbort reason) ∧
    (factoryRun (some reason) events).1 = [] :=
  ⟨rfl, rfl⟩

/-- C9: in the factory's effect trace, every prefix that already contains a
race-listener registration has the transport's `binaryType` set to
`'arraybuffer'`; hence at any point where a listener can fire the transport
delivers binary inbound messages as `ArrayBuffer`, not `Blob`. -/
theorem C9_binary_type_before_listeners (events : List RaceEvent) (k : Nat)
    (h : (((factoryRun none events).1.take k).any isListenerRegistration) = true) :
    binaryTypeAfter ((factoryRun none events).1.take k) = BinaryType.arraybuffer ∧
    decodeBinaryMessage (binaryTypeAfter ((factoryRun none events).1.take k)) =
      BinaryDelivery.asArrayBuffer := by
  have heff : (factoryRun none events).1 =
      [OpenEffect.createTransport, OpenEffect.setBinaryType BinaryType.arraybuffer,
       OpenEffect.addAbortListener, OpenEffect.addOpenListener,
       OpenEffect.addCloseListener, OpenEffect.addErrorListener] := rfl
  rw [heff] at h ⊢
  rcases k with _ | _ | _ | _ | _ | _ | n
  · exact absurd h (by decide)
  · exact absurd h (by decide)
  · exact absurd h (by decide)
  · exact ⟨by decide, by decide⟩
  · exact ⟨by decide, by decide⟩
  · exact ⟨by decide, by decide⟩
  · simp only [List.take_succ_cons, List.take_nil]
    exact ⟨by decide, by decide⟩

/-- C9 (witness): after the first three factory effects (transport created,
`binaryType` set, abort listener registered) a listener is registered and
the `binaryType` is `'arraybuffer'`, so binary messages decode as
`ArrayBuffer`. -/
theorem C9_binary_type_witness :
    (((factoryRun none []).1.take 3).any isListenerRegistration) = true ∧
    (binaryTypeAfter ((factoryRun none []).1.take 3) = BinaryType.arraybuffer ∧
     decodeBinaryMessage (binaryTypeAfter ((factoryRun none []).1.take 3)) =
       BinaryDelivery.asArrayBuffer) :=
  ⟨by decide, C9_binary_type_before_listeners [] 3 (by decide)⟩

/-- C10: when construction fails because the transport is not `OPEN`, the
constructor has performed no effect: no close or error listener was attached
to the transport and no transport operation was invoked. -/
theorem C10_ctor_frame (rs : ReadyState) (h : rs ≠ ReadyState.OPEN) :
    (construct rs).1 = [] := by
  simp [construct, h]

/-- C10 (witness): constructing from a `CONNECTING` transport leaves the
transport untouched. -/
theorem C10_ctor_frame_witness : (construct ReadyState.CONNECTING).1 = [] :=
  C10_ctor_frame ReadyState.CONNECTING (by decide)

end WSR
